import Mathlib

/-!
Shallow embedding of the helpdesk ticket service in `src/app.py`.

The service stores tickets in a single SQL table `dbo.tickets`
(columns `id`, `title`, `description`, `status`, `created_at`), modelled
here as a list of `Ticket` records together with the next identity value.
Each Flask handler becomes a pure Lean function from the request data and
the database state to an HTTP response (status code plus JSON body shape)
and the successor database state.
-/

/-- A row of `dbo.tickets`.  `id` comes from `INT IDENTITY(1,1)`,
`created_at` from `SYSUTCDATETIME()`, both modelled as `Nat`. -/
structure Ticket where
  id : Nat
  title : String
  description : String
  status : String
  created_at : Nat
deriving Repr, DecidableEq

/-- The database state: the rows of `dbo.tickets` plus the next value of
the identity column (which starts at 1). -/
structure DB where
  tickets : List Ticket
  nextId : Nat
deriving Repr, DecidableEq

/-- The empty database produced by `init_db` (the `CREATE TABLE` statement
creates an empty table; `IDENTITY(1,1)` starts the id sequence at 1). -/
def init_db : DB := { tickets := [], nextId := 1 }

/-- Shapes of the JSON bodies the handlers in `app.py` return. -/
inductive Body where
  /-- Body `jsonify({"error": s})`. -/
  | errorMsg (s : String)
  /-- Body `jsonify({"message": s})`. -/
  | message (s : String)
  /-- Body `jsonify({"ok": True})`. -/
  | okTrue
  /-- Body `jsonify([dict(r) for r in rows])`. -/
  | ticketList (l : List Ticket)
  /-- Body `jsonify(dict(row))`. -/
  | ticket (t : Ticket)
deriving Repr, DecidableEq

/-- An HTTP response: status code and JSON body. -/
abbrev Resp := Nat × Body

/-- Python `str.strip()` with no argument: remove leading and trailing
whitespace, modelled over the string's character list. -/
def pyStrip (s : String) : String :=
  ⟨((s.data.dropWhile Char.isWhitespace).reverse.dropWhile Char.isWhitespace).reverse⟩

/-- Predicate `listPref pre l` holds when `pre` is an initial segment of `l`. -/
def listPref : List Char → List Char → Bool
  | [], _ => true
  | _ :: _, [] => false
  | a :: as, b :: bs => a == b && listPref as bs

/-- Python `s.startswith(pre)`, modelled over the character lists. -/
def pyStartsWith (s pre : String) : Bool := listPref pre.data s.data

/-- Python `(x or "").strip()` applied to an optional JSON string field:
`None` and the empty string both collapse to `""` before stripping. -/
def pyStr (o : Option String) : String := pyStrip (o.getD "")

/-- Python `a or b` on two optional strings: the header value is used when
it is present and non-empty (truthy), otherwise the cookie value. -/
def pyOr : Option String → Option String → Option String
  | some s, b => if s = "" then b else some s
  | none, b => b

/-- The allowed `status` enumeration in `update_ticket`:
`{"Open", "In Progress", "Closed"}`. -/
def allowedStatuses : List String := ["Open", "In Progress", "Closed"]

-- -------------------------
-- Auth helper (Header or Cookie)
-- -------------------------

/-- The set `PUBLIC_PATHS = {"/", "/ui", "/login", "/health", "/openapi.json", "/docs"}`. -/
def PUBLIC_PATHS : List String := ["/", "/ui", "/login", "/health", "/openapi.json", "/docs"]

/-- The parts of a request the auth gate inspects: the path, the
`X-API-KEY` header and the `api_key` cookie (absent = `none`). -/
structure Request where
  path : String
  headerApiKey : Option String
  cookieApiKey : Option String
deriving Repr, DecidableEq

/-- The `before_request` hook `require_key`: `none` means the gate passes
the request on to the handler; `some resp` means it short-circuits with
`resp`.  `apiKey` is the server-side `API_KEY` setting (already stripped;
the empty string models an unset key). -/
def require_key (apiKey : String) (req : Request) : Option Resp :=
  if apiKey = "" then
    none
  else if req.path ∈ PUBLIC_PATHS ∨ pyStartsWith req.path "/static/" then
    none
  else
    let key := pyOr req.headerApiKey req.cookieApiKey
    if key ≠ some apiKey then some (401, .errorMsg "unauthorized") else none

-- -------------------------
-- Pages
-- -------------------------

/-- Handler of `GET /health`.  The handler body is `return jsonify({"ok": True}), 200`:
it performs no data-store access at all, so its result is independent of
data-store availability, which we expose with an ignored `dbOk` flag. -/
def health (dbOk : Bool) : Resp := (200, .okTrue)

-- -------------------------
-- API
-- -------------------------

/-- Relation `createdGE a b` holds when `a.created_at ≥ b.created_at`: row `a` may
precede row `b` in the output of `ORDER BY created_at DESC`. -/
def createdGE (a b : Ticket) : Prop := b.created_at ≤ a.created_at

instance : DecidableRel createdGE := fun a b => Nat.decLe _ _

instance : IsTotal Ticket createdGE := ⟨fun a b => Nat.le_total b.created_at a.created_at⟩

instance : IsTrans Ticket createdGE :=
  ⟨fun _ _ _ h1 h2 => Nat.le_trans h2 h1⟩

/-- Handler of `GET /tickets`: `SELECT ... FROM dbo.tickets ORDER BY created_at DESC`,
serialised as a JSON array.  The `ORDER BY` is modelled as a sort by the
`createdGE` relation; the state is read-only. -/
def get_tickets (db : DB) : Resp × DB :=
  ((200, .ticketList (List.insertionSort createdGE db.tickets)), db)

/-- Handler of `GET /tickets/<id>`: `SELECT ... WHERE id = :id`, `404` when no row. -/
def get_ticket (db : DB) (ticket_id : Nat) : Resp × DB :=
  match db.tickets.find? (fun t => t.id == ticket_id) with
  | none => ((404, .errorMsg "not found"), db)
  | some t => ((200, .ticket t), db)

/-- The JSON body of `POST /tickets` as the handler reads it:
`data.get("title")`, `data.get("description")`, and a possible `status`
key, which the handler never reads. -/
structure CreateBody where
  title : Option String
  description : Option String
  status : Option String
deriving Repr, DecidableEq

/-- Handler of `POST /tickets` (`post_ticket`): trims `title` and `description`
(Python `(data.get(k) or "").strip()`), rejects with 400 when either is
empty, and otherwise runs
`INSERT INTO dbo.tickets (title, description) VALUES (:t, :d)` —
the `status` and `created_at` columns take their defaults
(`'Open'`, `SYSUTCDATETIME()`, here the parameter `now`). -/
def post_ticket (db : DB) (now : Nat) (data : CreateBody) : Resp × DB :=
  let title := pyStr data.title
  let description := pyStr data.description
  if title = "" ∨ description = "" then
    ((400, .errorMsg "title and description required"), db)
  else
    ((201, .message "ticket created"),
     { tickets := db.tickets ++
         [{ id := db.nextId, title := title, description := description,
            status := "Open", created_at := now }],
       nextId := db.nextId + 1 })

/-- The JSON body of `PATCH /tickets/<id>` as the handler reads it: only
the `status` key is recognised. -/
structure PatchBody where
  status : Option String
deriving Repr, DecidableEq

/-- Handler of `PATCH /tickets/<id>` (`update_ticket`): trims `status`, rejects with
400 when it is not in the allowed set, otherwise runs
`UPDATE dbo.tickets SET status = :s WHERE id = :id` and answers 404 when
the statement matched no row (`res.rowcount == 0`), 200 otherwise. -/
def update_ticket (db : DB) (ticket_id : Nat) (data : PatchBody) : Resp × DB :=
  let status := pyStr data.status
  if status ∉ allowedStatuses then
    ((400, .errorMsg "status must be Open, In Progress, or Closed"), db)
  else
    let rowcount := (db.tickets.filter (fun t => t.id == ticket_id)).length
    let updated :=
      db.tickets.map (fun t => if t.id == ticket_id then { t with status := status } else t)
    let db2 : DB := { db with tickets := updated }
    if rowcount == 0 then ((404, .errorMsg "not found"), db2)
    else ((200, .message "ticket updated"), db2)

/-- Handler of `DELETE /tickets/<id>` (`delete_ticket`): runs
`DELETE FROM dbo.tickets WHERE id = :id` and answers 404 when the
statement matched no row, 200 otherwise. -/
def delete_ticket (db : DB) (ticket_id : Nat) : Resp × DB :=
  let rowcount := (db.tickets.filter (fun t => t.id == ticket_id)).length
  let db2 : DB := { db with tickets := db.tickets.filter (fun t => t.id != ticket_id) }
  if rowcount == 0 then ((404, .errorMsg "not found"), db2)
  else ((200, .message "ticket deleted"), db2)

-- -------------------------
-- Operation sequences over the store
-- -------------------------

/-- One mutating request against the tickets table. -/
inductive Op where
  | create (now : Nat) (data : CreateBody)
  | update (ticket_id : Nat) (data : PatchBody)
  | delete (ticket_id : Nat)
deriving Repr, DecidableEq

/-- The state transition of one request (the response is discarded). -/
def applyOp (db : DB) : Op → DB
  | .create now data => (post_ticket db now data).2
  | .update ticket_id data => (update_ticket db ticket_id data).2
  | .delete ticket_id => (delete_ticket db ticket_id).2

/-- The database reached from the freshly created empty table by a
sequence of requests. -/
def run (ops : List Op) : DB := ops.foldl applyOp init_db

/-- The row the insert of `post_ticket` appends: server-assigned id and
timestamp, trimmed title and description, default status `Open`. -/
def newTicket (db : DB) (now : Nat) (data : CreateBody) : Ticket :=
  { id := db.nextId, title := pyStr data.title, description := pyStr data.description, status := "Open", created_at := now }

/-- The table state after `UPDATE dbo.tickets SET status = :s WHERE id = :id`. -/
def updRows (db : DB) (ticket_id : Nat) (s : String) : DB :=
  { db with tickets := db.tickets.map (fun t => if t.id = ticket_id then { t with status := s } else t) }

/-- The table state after `DELETE FROM dbo.tickets WHERE id = :id`. -/
def delRows (db : DB) (ticket_id : Nat) : DB :=
  { db with tickets := db.tickets.filter (fun t => t.id != ticket_id) }

/-- Every ticket of `db` has an allowed status. -/
def statusOk (db : DB) : Prop := ∀ t ∈ db.tickets, t.status ∈ allowedStatuses

/-- A concrete two-row table used to instantiate the general theorems. -/
def dbTwo : DB :=
  { tickets := [⟨1, "t1", "d1", "Open", 3⟩, ⟨2, "t2", "d2", "Open", 5⟩], nextId := 3 }

-- -------------------------
-- Helper lemmas
-- -------------------------

/-- If neither the header value nor the cookie value equals `k`, the
Python `or`-chained lookup does not equal `k` either. -/
theorem pyOr_ne_of_ne (h c : Option String) (k : String)
    (hh : h ≠ some k) (hc : c ≠ some k) : pyOr h c ≠ some k := by
  cases h with
  | none => simpa [pyOr] using hc
  | some s =>
    by_cases hs : s = ""
    · simpa [pyOr, hs] using hc
    · simpa [pyOr, hs] using hh

/-- A row filter on an id matched by no row returns the empty list. -/
theorem filter_id_eq_nil (db : DB) (ticket_id : Nat)
    (hnone : ∀ t ∈ db.tickets, t.id ≠ ticket_id) :
    db.tickets.filter (fun t => t.id == ticket_id) = [] := by
  apply List.filter_eq_nil_iff.mpr
  intro t ht
  simpa using hnone t ht

-- -------------------------
-- Claims
-- -------------------------

/-- C2: with the server-side API key unset (empty after stripping), the
auth gate passes every request, in particular one with no header and no
cookie; with the key set, a request to a non-public path whose header and
cookie both differ from the key is rejected with 401 before the handler
runs. -/
theorem require_key_gate (apiKey : String) (req : Request) :
    (apiKey = "" → require_key apiKey req = none) ∧
    (apiKey ≠ "" → req.path ∉ PUBLIC_PATHS → pyStartsWith req.path "/static/" = false →
      req.headerApiKey ≠ some apiKey → req.cookieApiKey ≠ some apiKey →
      require_key apiKey req = some (401, Body.errorMsg "unauthorized")) := by
  constructor
  · intro h
    simp [require_key, h]
  · intro hk hpub hstat hh hc
    have hkey := pyOr_ne_of_ne req.headerApiKey req.cookieApiKey apiKey hh hc
    simp [require_key, hk, hpub, hstat, hkey]

/-- Concrete instance of `require_key_gate`: an unset key passes a bare
request to `/tickets`; a set key rejects a request whose header is absent
and whose cookie is wrong. -/
theorem require_key_gate_witness :
    require_key "" { path := "/tickets", headerApiKey := none, cookieApiKey := none } = none ∧
    require_key "sekret" { path := "/tickets", headerApiKey := none, cookieApiKey := some "bad" } =
      some (401, Body.errorMsg "unauthorized") :=
  ⟨(require_key_gate "" _).1 rfl,
   (require_key_gate "sekret" _).2 (by decide) (by decide) (by decide) (by decide) (by decide)⟩

/-- C5: a create request whose `title` or `description` is missing or
empty after trimming yields 400 — whatever the other fields hold — and
leaves the database unchanged (no row inserted). -/
theorem post_ticket_missing_fields (db : DB) (now : Nat) (data : CreateBody)
    (h : pyStr data.title = "" ∨ pyStr data.description = "") :
    post_ticket db now data = ((400, Body.errorMsg "title and description required"), db) := by
  rcases h with h | h <;> simp [post_ticket, h]

/-- Concrete instance of `post_ticket_missing_fields`: a whitespace-only
title is rejected even though every other field is present and valid. -/
theorem post_ticket_missing_fields_witness :
    post_ticket init_db 5
        { title := some "   ", description := some "desc", status := some "Open" } =
      ((400, Body.errorMsg "title and description required"), init_db) :=
  post_ticket_missing_fields init_db 5 _ (Or.inl (by decide))

/-- C3: a partial update that supplies no recognized field (`status`
absent), or whose trimmed `status` is outside the allowed enumeration,
yields 400 and leaves every row of the table unchanged. -/
theorem update_ticket_invalid_status (db : DB) (ticket_id : Nat) (data : PatchBody)
    (h : data.status = none ∨ pyStr data.status ∉ allowedStatuses) :
    update_ticket db ticket_id data =
      ((400, Body.errorMsg "status must be Open, In Progress, or Closed"), db) := by
  have h' : pyStr data.status ∉ allowedStatuses := by
    rcases h with h | h
    · rw [h]; decide
    · exact h
  simp [update_ticket, h']

/-- Concrete instance of `update_ticket_invalid_status`: an unrecognized
status value is rejected with 400 and the database is unchanged. -/
theorem update_ticket_invalid_status_witness :
    update_ticket init_db 1 { status := some "Reopened" } =
      ((400, Body.errorMsg "status must be Open, In Progress, or Closed"), init_db) :=
  update_ticket_invalid_status init_db 1 _ (Or.inr (by decide))

/-- C4: when no row carries the requested id, an otherwise valid partial
update answers 404, and a delete answers 404 (and neither changes the
table). -/
theorem mutate_missing_id_404 (db : DB) (ticket_id : Nat) (data : PatchBody)
    (hnone : ∀ t ∈ db.tickets, t.id ≠ ticket_id)
    (hvalid : pyStr data.status ∈ allowedStatuses) :
    (update_ticket db ticket_id data).1.1 = 404 ∧
    (update_ticket db ticket_id data).2 = db ∧
    (delete_ticket db ticket_id).1.1 = 404 ∧
    (delete_ticket db ticket_id).2 = db := by
  have hfilter := filter_id_eq_nil db ticket_id hnone
  have hmap : db.tickets.map
      (fun t => if t.id = ticket_id then { t with status := pyStr data.status } else t) =
      db.tickets := by
    have hid : ∀ t ∈ db.tickets,
        (if t.id = ticket_id then { t with status := pyStr data.status } else t) = t := by
      intro t ht
      rw [if_neg (hnone t ht)]
    rw [List.map_congr_left hid]
    simp
  have hkeep : db.tickets.filter (fun t => t.id != ticket_id) = db.tickets := by
    apply List.filter_eq_self.mpr
    intro t ht
    simpa using hnone t ht
  refine ⟨?_, ?_, ?_, ?_⟩ <;> simp [update_ticket, delete_ticket, hvalid, hfilter, hmap, hkeep]

/-- Concrete instance of `mutate_missing_id_404`: id 2 matches no row of a
one-row table, so a valid update and a delete both answer 404 and leave
the table as it was. -/
theorem mutate_missing_id_404_witness :
    (update_ticket { tickets := [⟨1, "a", "b", "Open", 0⟩], nextId := 2 } 2
        { status := some "Closed" }).1.1 = 404 ∧
    (update_ticket { tickets := [⟨1, "a", "b", "Open", 0⟩], nextId := 2 } 2
        { status := some "Closed" }).2 = { tickets := [⟨1, "a", "b", "Open", 0⟩], nextId := 2 } ∧
    (delete_ticket { tickets := [⟨1, "a", "b", "Open", 0⟩], nextId := 2 } 2).1.1 = 404 ∧
    (delete_ticket { tickets := [⟨1, "a", "b", "Open", 0⟩], nextId := 2 } 2).2 =
      { tickets := [⟨1, "a", "b", "Open", 0⟩], nextId := 2 } :=
  mutate_missing_id_404 _ 2 _ (by decide) (by decide)

/-- On valid input, `post_ticket` answers 201 and appends exactly the row
`newTicket db now data`. -/
theorem post_ticket_state (db : DB) (now : Nat) (data : CreateBody)
    (h1 : pyStr data.title ≠ "") (h2 : pyStr data.description ≠ "") :
    post_ticket db now data =
      ((201, Body.message "ticket created"),
       { tickets := db.tickets ++ [newTicket db now data], nextId := db.nextId + 1 }) := by
  simp [post_ticket, h1, h2, newTicket]

/-- On a valid status, the state after `update_ticket` is `updRows`
(whether or not any row matched). -/
theorem update_ticket_state (db : DB) (ticket_id : Nat) (data : PatchBody)
    (hv : pyStr data.status ∈ allowedStatuses) :
    (update_ticket db ticket_id data).2 = updRows db ticket_id (pyStr data.status) := by
  by_cases hc : (db.tickets.filter (fun t => t.id == ticket_id)).length = 0 <;>
    simp [update_ticket, updRows, hv, hc]

/-- The state after `delete_ticket` is `delRows` (whether or not any row
matched). -/
theorem delete_ticket_state (db : DB) (ticket_id : Nat) :
    (delete_ticket db ticket_id).2 = delRows db ticket_id := by
  by_cases hc : (db.tickets.filter (fun t => t.id == ticket_id)).length = 0 <;>
    simp [delete_ticket, delRows, hc]

/-- C6: a successful partial update (response 200) changes at most the
`status` of rows carrying the requested id: the table keeps its length and
identity counter, every row keeps its `id`, `title`, `description` and
`created_at`, and every row whose id differs from the requested one is
completely unchanged. -/
theorem update_ticket_frame (db : DB) (ticket_id : Nat) (data : PatchBody)
    (h200 : (update_ticket db ticket_id data).1.1 = 200) :
    (update_ticket db ticket_id data).2.tickets.length = db.tickets.length ∧
    (update_ticket db ticket_id data).2.nextId = db.nextId ∧
    ∀ i : Nat, ∀ t t2 : Ticket, db.tickets[i]? = some t →
      (update_ticket db ticket_id data).2.tickets[i]? = some t2 →
      t2.id = t.id ∧ t2.title = t.title ∧ t2.description = t.description ∧
      t2.created_at = t.created_at ∧ (t.id ≠ ticket_id → t2 = t) := by
  by_cases hv : pyStr data.status ∈ allowedStatuses
  · rw [update_ticket_state db ticket_id data hv]
    refine ⟨by simp [updRows], rfl, ?_⟩
    intro i t t2 ht ht2
    simp only [updRows, List.getElem?_map, ht, Option.map_some'] at ht2
    have h3 := Option.some.inj ht2
    by_cases hid : t.id = ticket_id
    · rw [if_pos hid] at h3
      subst h3
      exact ⟨rfl, rfl, rfl, rfl, fun hne => absurd hid hne⟩
    · rw [if_neg hid] at h3
      subst h3
      exact ⟨rfl, rfl, rfl, rfl, fun _ => rfl⟩
  · simp [update_ticket, hv] at h200

/-- Concrete instance of `update_ticket_frame`: closing ticket 1 in a
two-row table succeeds and satisfies the frame conditions. -/
theorem update_ticket_frame_witness :
    (update_ticket dbTwo 1 { status := some "Closed" }).1.1 = 200 ∧
    ((update_ticket dbTwo 1 { status := some "Closed" }).2.tickets.length =
        dbTwo.tickets.length ∧
      (update_ticket dbTwo 1 { status := some "Closed" }).2.nextId = dbTwo.nextId ∧
      ∀ i : Nat, ∀ t t2 : Ticket, dbTwo.tickets[i]? = some t →
        (update_ticket dbTwo 1 { status := some "Closed" }).2.tickets[i]? = some t2 →
        t2.id = t.id ∧ t2.title = t.title ∧ t2.description = t.description ∧
        t2.created_at = t.created_at ∧ (t.id ≠ 1 → t2 = t)) :=
  ⟨by decide, update_ticket_frame dbTwo 1 { status := some "Closed" } (by decide)⟩

/-- C7: listing tickets answers 200 with exactly the rows of the table
(a permutation: nothing dropped, nothing added, no pagination), arranged
so that `created_at` is non-increasing (newest first), and reads the
state without changing it. -/
theorem get_tickets_sorted (db : DB) :
    ∃ l : List Ticket,
      (get_tickets db).1 = (200, Body.ticketList l) ∧
      l.Perm db.tickets ∧
      List.Sorted createdGE l ∧
      (get_tickets db).2 = db :=
  ⟨List.insertionSort createdGE db.tickets, rfl,
   List.perm_insertionSort createdGE db.tickets,
   List.sorted_insertionSort createdGE db.tickets, rfl⟩

/-- One request (create, update or delete) preserves `statusOk`. -/
theorem applyOp_statusOk (db : DB) (op : Op) (h : statusOk db) : statusOk (applyOp db op) := by
  cases op with
  | create now data =>
    by_cases hcond : pyStr data.title = "" ∨ pyStr data.description = ""
    · rcases hcond with hc | hc <;> simpa [applyOp, post_ticket, hc] using h
    · push_neg at hcond
      obtain ⟨h1, h2⟩ := hcond
      show statusOk (post_ticket db now data).2
      rw [post_ticket_state db now data h1 h2]
      intro t ht
      rw [List.mem_append] at ht
      rcases ht with ht | ht
      · exact h t ht
      · rw [List.mem_singleton] at ht
        subst ht
        show "Open" ∈ allowedStatuses
        decide
  | update ticket_id data =>
    by_cases hv : pyStr data.status ∈ allowedStatuses
    · show statusOk (update_ticket db ticket_id data).2
      rw [update_ticket_state db ticket_id data hv]
      intro t ht
      rw [updRows] at ht
      rw [List.mem_map] at ht
      obtain ⟨a, ha, hfa⟩ := ht
      by_cases hid : a.id = ticket_id
      · rw [if_pos hid] at hfa
        subst hfa
        simpa using hv
      · rw [if_neg hid] at hfa
        subst hfa
        exact h a ha
    · simpa [applyOp, update_ticket, hv] using h
  | delete ticket_id =>
    show statusOk (delete_ticket db ticket_id).2
    rw [delete_ticket_state db ticket_id]
    intro t ht
    exact h t (List.mem_of_mem_filter ht)

/-- C8: in every database reachable from the empty table by any sequence
of create, update and delete requests, every ticket's `status` is one of
the allowed enumeration values — maintained purely by the handlers, since
the table itself carries no constraint on `status` beyond its default. -/
theorem run_status_invariant (ops : List Op) :
    ∀ t ∈ (run ops).tickets, t.status ∈ allowedStatuses := by
  suffices hgen : ∀ l : List Op, ∀ db : DB, statusOk db → statusOk (l.foldl applyOp db) by
    exact hgen ops init_db (fun t ht => absurd ht (by simp [init_db]))
  intro l
  induction l with
  | nil => intro db h; exact h
  | cons op rest ih => intro db h; exact ih _ (applyOp_statusOk db op h)

/-- Concrete instance of `run_status_invariant`: the ticket produced by
one create request carries the allowed status `Open`. -/
theorem run_status_invariant_witness :
    (⟨1, "a", "b", "Open", 0⟩ : Ticket) ∈
      (run [Op.create 0 { title := some "a", description := some "b", status := none }]).tickets ∧
    (⟨1, "a", "b", "Open", 0⟩ : Ticket).status ∈ allowedStatuses :=
  ⟨by decide,
   run_status_invariant [Op.create 0 { title := some "a", description := some "b", status := none }]
     ⟨1, "a", "b", "Open", 0⟩ (by decide)⟩

/-- C10: a successful create (response 201) appends exactly one row whose
`status` is `Open` (with the server-assigned id and timestamp), and the
handler never reads the request's `status` field — replacing it changes
nothing about the outcome. -/
theorem post_ticket_default_status (db : DB) (now : Nat) (data : CreateBody)
    (h : (post_ticket db now data).1.1 = 201) :
    (∀ s : Option String,
      post_ticket db now { data with status := s } = post_ticket db now data) ∧
    ∃ t : Ticket, (post_ticket db now data).2.tickets = db.tickets ++ [t] ∧
      t.status = "Open" ∧ t.id = db.nextId ∧ t.created_at = now := by
  by_cases hcond : pyStr data.title = "" ∨ pyStr data.description = ""
  · rcases hcond with hc | hc <;> simp [post_ticket, hc] at h
  · push_neg at hcond
    obtain ⟨h1, h2⟩ := hcond
    refine ⟨fun s => rfl, newTicket db now data, ?_, rfl, rfl, rfl⟩
    rw [post_ticket_state db now data h1 h2]

/-- Concrete instance of `post_ticket_default_status`: a valid create
request carrying `status: "Closed"` still stores status `Open`. -/
theorem post_ticket_default_status_witness :
    (post_ticket init_db 7
        { title := some "Printer", description := some "Broken", status := some "Closed" }).1.1 =
      201 ∧
    ∃ t : Ticket,
      (post_ticket init_db 7
          { title := some "Printer", description := some "Broken",
            status := some "Closed" }).2.tickets = init_db.tickets ++ [t] ∧
      t.status = "Open" ∧ t.id = init_db.nextId ∧ t.created_at = 7 :=
  ⟨by decide, (post_ticket_default_status init_db 7 _ (by decide)).2⟩

/-- C1 counterexample: a create request whose `status` is the unrecognized
value `"Bogus"` is NOT rejected — it answers 201 and a row is inserted. -/
theorem post_ticket_unrecognized_status_cex :
    pyStr (some "Bogus") ∉ allowedStatuses ∧
    (post_ticket init_db 0
        { title := some "t", description := some "d", status := some "Bogus" }).1.1 = 201 ∧
    (post_ticket init_db 0
        { title := some "t", description := some "d", status := some "Bogus" }).2.tickets.length =
      init_db.tickets.length + 1 := by
  decide

/-- C1 amended: a create request carrying an unrecognized `status` is not
rejected for it — the handler never reads `status` (removing it changes
nothing), no existing row is lost, and any row beyond the existing ones
carries status `Open`. -/
theorem post_ticket_unrecognized_status_ignored (db : DB) (now : Nat) (data : CreateBody)
    (h : pyStr data.status ∉ allowedStatuses) :
    post_ticket db now data = post_ticket db now { data with status := none } ∧
    (∀ t ∈ db.tickets, t ∈ (post_ticket db now data).2.tickets) ∧
    (∀ t ∈ (post_ticket db now data).2.tickets, t ∈ db.tickets ∨ t.status = "Open") := by
  by_cases hcond : pyStr data.title = "" ∨ pyStr data.description = ""
  · refine ⟨rfl, ?_, ?_⟩
    · intro t ht
      rcases hcond with hc | hc <;> simpa [post_ticket, hc] using ht
    · intro t ht
      rcases hcond with hc | hc <;> (left; simpa [post_ticket, hc] using ht)
  · push_neg at hcond
    obtain ⟨h1, h2⟩ := hcond
    have hstate := post_ticket_state db now data h1 h2
    refine ⟨rfl, ?_, ?_⟩
    · intro t ht
      rw [hstate]
      rw [List.mem_append]
      exact Or.inl ht
    · intro t ht
      rw [hstate] at ht
      rw [List.mem_append] at ht
      rcases ht with ht | ht
      · exact Or.inl ht
      · rw [List.mem_singleton] at ht
        subst ht
        exact Or.inr rfl

/-- Concrete instance of `post_ticket_unrecognized_status_ignored`: with
the unrecognized status `"Nonsense"` the outcome equals the outcome of the
same request without a status field. -/
theorem post_ticket_unrecognized_status_ignored_witness :
    pyStr (some "Nonsense") ∉ allowedStatuses ∧
    post_ticket init_db 3
        { title := some "a", description := some "b", status := some "Nonsense" } =
      post_ticket init_db 3 { title := some "a", description := some "b", status := none } :=
  ⟨by decide, (post_ticket_unrecognized_status_ignored init_db 3 _ (by decide)).1⟩

/-- C9 counterexample: with the data store unavailable, `GET /health`
still answers 200 with `{"ok": true}` — not a 500 degraded report — since
the handler performs no data-store query at all. -/
theorem health_no_roundtrip_cex :
    health false = (200, Body.okTrue) ∧ (health false).1 ≠ 500 :=
  ⟨rfl, by decide⟩

/-- C9 amended: `GET /health` answers 200 with `{"ok": true}`
unconditionally; it performs no data-store round trip, so data-store
availability does not change its response and no degraded status is ever
reported. -/
theorem health_constant (dbOk : Bool) : health dbOk = (200, Body.okTrue) := rfl
